import Mathlib

/-!
Verification of the posture-monitor extension's analysis and alerting core.

The definitions below are a shallow embedding of the repository's JavaScript:

* `src/detection/poseAnalyzer.js` — keypoint validation, geometric metric
  extraction, calibration, exponential smoothing, scoring and classification
  (the `PoseAnalyzer` class; its mutable `smoothedMetrics` field is passed
  explicitly and returned).
* `src/utils/mathUtils.js` — `calculateAngle`, `normalizeValue`, `clamp`,
  `exponentialSmoothing`.
* `src/utils/constants.js` — `PostureStatus`, `ScoreThresholds`,
  `SensitivityMultipliers`, `KeypointParts`, `Time`.
* `src/background/background.js` — `handlePostureUpdate`, `triggerAlert`,
  `snoozeAlerts`, with the module state (`lastAlertTime`,
  `poorPostureStartTime`) reified as `BgState` and `Date.now()` passed in as
  an explicit `now` argument.

Numbers are idealised: keypoint coordinates, scores and configuration values
are rationals, and the angle metrics (outputs of `Math.atan`/`Math.atan2`)
are reals.  JS falsy-or defaulting (`x || d`, which replaces both a missing
value and the number 0 by `d`) is modelled by `jsOr`.
-/

namespace PostureMonitor

/-- A 2D position `{x, y}` in frame pixel space. -/
structure Point where
  x : ℚ
  y : ℚ
deriving DecidableEq

/-- One raw keypoint `{part, position, score}` as supplied to
`PoseAnalyzer.analyzePose`.  `part` and `position` are `Option` because the
source guards against them being missing (`!kp.part || !kp.position`). -/
structure Keypoint where
  part : Option String
  position : Option Point
  score : ℚ
deriving DecidableEq

/-- JS `a || d` on an optional number: `undefined`/`null` and the falsy
number `0` both fall back to the default `d`. -/
def jsOr (a : Option ℚ) (d : ℚ) : ℚ :=
  match a with
  | none => d
  | some x => if x = 0 then d else x

/-- An entry of the object built by `PoseAnalyzer.extractKeypoints`:
`{x, y, score}`. -/
structure ExtractedKeypoint where
  x : ℚ
  y : ℚ
  score : ℚ
deriving DecidableEq

/-- `PoseAnalyzer.extractKeypoints`: fold the keypoint array into a map keyed
by part name, skipping entries whose `part` is missing/empty or whose
`position` is missing (the `typeof` checks hold vacuously here since
positions are rationals).  Later entries overwrite earlier ones, as JS
object assignment does.  `kp.score || 0` is the identity on a rational score
(`0` falls back to `0`), so the score is stored unchanged. -/
def extractKeypoints (kps : List Keypoint) : String → Option ExtractedKeypoint :=
  kps.foldl
    (fun acc kp =>
      match kp.part, kp.position with
      | some p, some pos =>
          if p = "" then acc
          else fun q => if q = p then some ⟨pos.x, pos.y, kp.score⟩ else acc q
      | _, _ => acc)
    (fun _ => none)

/-- The `required` list of `PoseAnalyzer.hasRequiredKeypoints`
(`KeypointParts.NOSE`, `LEFT_SHOULDER`, `RIGHT_SHOULDER`). -/
def requiredParts : List String := ["nose", "leftShoulder", "rightShoulder"]

/-- `PoseAnalyzer.hasRequiredKeypoints`: every required part is present in
the extracted map with `score > 0.3`. -/
def hasRequiredKeypoints (keypoints : String → Option ExtractedKeypoint) : Bool :=
  requiredParts.all fun part =>
    match keypoints part with
    | some kp => decide (kp.score > 3/10)
    | none => false

/-- `PoseAnalyzer.getAverageConfidence`: `0` for an empty array, otherwise
the mean of the raw `score` fields of all supplied keypoints. -/
def getAverageConfidence (kps : List Keypoint) : ℚ :=
  if kps.length = 0 then 0
  else (kps.foldl (fun acc kp => acc + kp.score) 0) / kps.length

/-- JS `Math.atan2(y, x)`. -/
noncomputable def mathAtan2 (y x : ℝ) : ℝ :=
  if 0 < x then Real.arctan (y / x)
  else if x < 0 then
    (if 0 ≤ y then Real.arctan (y / x) + Real.pi else Real.arctan (y / x) - Real.pi)
  else
    (if 0 < y then Real.pi / 2 else if y < 0 then -(Real.pi / 2) else 0)

/-- `mathUtils.calculateAngle(point1, point2)`: absolute angle in degrees of
the segment from `point1` to `point2`, measured from vertical
(`Math.abs(Math.atan2(deltaX, deltaY) * 180 / PI)`); `0` when either point
is missing. -/
noncomputable def calculateAngle (point1 point2 : Option Point) : ℝ :=
  match point1, point2 with
  | some p1, some p2 =>
      |mathAtan2 ((p2.x : ℝ) - (p1.x : ℝ)) ((p2.y : ℝ) - (p1.y : ℝ)) * (180 / Real.pi)|
  | _, _ => 0

/-- `PoseAnalyzer.calculateHeadForwardAngle`: angle from vertical of the line
from the shoulder midpoint to the nose,
`atan(horizontalDistance / verticalDistance) * 180 / PI`, with the
division-by-zero guard returning `0`. -/
noncomputable def calculateHeadForwardAngle
    (keypoints : String → Option ExtractedKeypoint) : ℝ :=
  match keypoints "nose", keypoints "leftShoulder", keypoints "rightShoulder" with
  | some nose, some leftShoulder, some rightShoulder =>
      let shoulderMidX : ℚ := (leftShoulder.x + rightShoulder.x) / 2
      let shoulderMidY : ℚ := (leftShoulder.y + rightShoulder.y) / 2
      let horizontalDistance : ℚ := |nose.x - shoulderMidX|
      let verticalDistance : ℚ := |shoulderMidY - nose.y|
      if verticalDistance = 0 then 0
      else Real.arctan ((horizontalDistance : ℝ) / (verticalDistance : ℝ)) * (180 / Real.pi)
  | _, _, _ => 0

/-- `PoseAnalyzer.calculateShoulderAsymmetry`: angle of the shoulder line
from horizontal, `atan(heightDiff / shoulderWidth) * 180 / PI`, with the
division-by-zero guard returning `0`. -/
noncomputable def calculateShoulderAsymmetry
    (keypoints : String → Option ExtractedKeypoint) : ℝ :=
  match keypoints "leftShoulder", keypoints "rightShoulder" with
  | some leftShoulder, some rightShoulder =>
      let heightDiff : ℚ := |leftShoulder.y - rightShoulder.y|
      let shoulderWidth : ℚ := |rightShoulder.x - leftShoulder.x|
      if shoulderWidth = 0 then 0
      else Real.arctan ((heightDiff : ℝ) / (shoulderWidth : ℝ)) * (180 / Real.pi)
  | _, _ => 0

/-- `PoseAnalyzer.calculateNeckAngle`: vertical angle between the shoulder
midpoint and the head reference point (ear midpoint when both ears are
present, otherwise the nose), via `calculateAngle`. -/
noncomputable def calculateNeckAngle
    (keypoints : String → Option ExtractedKeypoint) : ℝ :=
  let headPoint : Option Point :=
    match keypoints "leftEar", keypoints "rightEar" with
    | some leftEar, some rightEar =>
        some ⟨(leftEar.x + rightEar.x) / 2, (leftEar.y + rightEar.y) / 2⟩
    | _, _ => (keypoints "nose").map fun nose => ⟨nose.x, nose.y⟩
  match headPoint, keypoints "leftShoulder", keypoints "rightShoulder" with
  | some hp, some leftShoulder, some rightShoulder =>
      calculateAngle
        (some ⟨(leftShoulder.x + rightShoulder.x) / 2,
               (leftShoulder.y + rightShoulder.y) / 2⟩)
        (some hp)
  | _, _, _ => 0

/-- The metrics record built by `analyzePose`: angular metrics (reals, since
they come out of `atan`), plus the frame's average confidence and timestamp. -/
structure Metrics where
  headForwardAngle : ℝ
  shoulderAsymmetry : ℝ
  neckAngle : ℝ
  confidence : ℚ
  timestamp : ℚ

/-- `PoseAnalyzer.applyCalibration`: identity when the baseline is
`undefined`/`null`, otherwise `Math.max(0, value - baseline)`. -/
noncomputable def applyCalibration (value : ℝ) (baseline : Option ℚ) : ℝ :=
  match baseline with
  | none => value
  | some b => max 0 (value - (b : ℝ))

/-- `mathUtils.exponentialSmoothing(newValue, oldValue, alpha)`:
`alpha * newValue + (1 - alpha) * oldValue`. -/
noncomputable def exponentialSmoothing (newValue oldValue alpha : ℝ) : ℝ :=
  alpha * newValue + (1 - alpha) * oldValue

/-- `PoseAnalyzer.smoothMetrics`: the current metrics verbatim when there is
no previous smoothed value; otherwise each angular field is exponentially
smoothed with `alpha = 0.3` while `confidence` and `timestamp` are passed
through from the current metrics. -/
noncomputable def smoothMetrics (smoothed : Option Metrics) (metrics : Metrics) : Metrics :=
  match smoothed with
  | none => metrics
  | some prev =>
      { headForwardAngle :=
          exponentialSmoothing metrics.headForwardAngle prev.headForwardAngle 0.3
        shoulderAsymmetry :=
          exponentialSmoothing metrics.shoulderAsymmetry prev.shoulderAsymmetry 0.3
        neckAngle :=
          exponentialSmoothing metrics.neckAngle prev.neckAngle 0.3
        confidence := metrics.confidence
        timestamp := metrics.timestamp }

/-- `constants.SensitivityMultipliers`' keys. -/
inductive Sensitivity
  | low
  | medium
  | high
deriving DecidableEq

/-- `constants.SensitivityMultipliers`: `{low: 0.7, medium: 1.0, high: 1.5}`. -/
def SensitivityMultipliers : Sensitivity → ℚ
  | .low => 7/10
  | .medium => 1
  | .high => 3/2

/-- `settings.thresholds`. -/
structure ThresholdCfg where
  headForwardAngle : ℚ
  shoulderAsymmetry : ℚ
  poorPostureDuration : ℚ
deriving DecidableEq

/-- `settings.alerts`.  The background script reads these fields without
optional chaining, so they are modelled as always present. -/
structure AlertCfg where
  enabled : Bool
  cooldown : ℚ
  sound : Bool
deriving DecidableEq

/-- `settings.detection`. -/
structure DetectionCfg where
  fps : Option ℚ
  confidenceThreshold : Option ℚ
deriving DecidableEq

/-- `settings.calibration`. -/
structure CalibrationCfg where
  headForwardAngle : Option ℚ
  shoulderAsymmetry : Option ℚ
deriving DecidableEq

/-- The settings object shared by the analyzer and the background script. -/
structure Settings where
  sensitivity : Option Sensitivity
  thresholds : Option ThresholdCfg
  alerts : AlertCfg
  detection : Option DetectionCfg
  calibration : Option CalibrationCfg
deriving DecidableEq

/-- `mathUtils.normalizeValue(value, min, max)`: `0` when `max === min`,
otherwise `(value - min) / (max - min)` clamped to `[0, 1]`. -/
noncomputable def normalizeValue (value mn mx : ℝ) : ℝ :=
  if mx = mn then 0
  else max 0 (min 1 ((value - mn) / (mx - mn)))

/-- `mathUtils.clamp(value, min, max)` = `Math.max(min, Math.min(max, value))`. -/
noncomputable def clamp (value mn mx : ℝ) : ℝ :=
  max mn (min mx value)

/-- `PoseAnalyzer.calculatePostureScore`: sensitivity-scaled head and
shoulder metrics are normalised against twice their thresholds, combined
with weights 0.6/0.4, clamped to `[0, 100]` and rounded
(`Math.round` rounds half up, as does Mathlib's `round`).  The threshold
fallback object `{headForwardAngle: 15, shoulderAsymmetry: 10}` applies when
`settings.thresholds` is missing; `settings.sensitivity || 'medium'`
defaults the sensitivity. -/
noncomputable def calculatePostureScore (s : Settings) (metrics : Metrics) : ℤ :=
  let sensitivity := s.sensitivity.getD .medium
  let multiplier : ℝ := (SensitivityMultipliers sensitivity : ℚ)
  let thresholdHead : ℝ := ((s.thresholds.map (·.headForwardAngle)).getD 15 : ℚ)
  let thresholdShoulder : ℝ := ((s.thresholds.map (·.shoulderAsymmetry)).getD 10 : ℚ)
  let headScore : ℝ :=
    100 - normalizeValue (metrics.headForwardAngle * multiplier) 0 (thresholdHead * 2) * 100
  let shoulderScore : ℝ :=
    100 - normalizeValue (metrics.shoulderAsymmetry * multiplier) 0 (thresholdShoulder * 2) * 100
  let totalScore : ℝ := headScore * 0.6 + shoulderScore * 0.4
  round (max 0 (min 100 totalScore))

/-- `constants.PostureStatus`. -/
inductive PostureStatus
  | good
  | warning
  | poor
  | unknown
deriving DecidableEq

/-- `constants.ScoreThresholds.GOOD`. -/
def ScoreThresholds.GOOD : ℤ := 80

/-- `constants.ScoreThresholds.WARNING`. -/
def ScoreThresholds.WARNING : ℤ := 50

/-- `PoseAnalyzer.classifyPosture`. -/
def classifyPosture (score : ℤ) : PostureStatus :=
  if score ≥ ScoreThresholds.GOOD then .good
  else if score ≥ ScoreThresholds.WARNING then .warning
  else .poor

/-- The object returned by `analyzePose`. -/
structure AnalysisResult where
  metrics : Metrics
  score : ℤ
  status : PostureStatus
  rawMetrics : Metrics

/-- `PoseAnalyzer.analyzePose`.  The instance state `this.smoothedMetrics`
is the `smoothed` argument; the pair's second component is its value after
the call (unchanged when the analysis bails out with `null`).  `Date.now()`
is the explicit `now` argument.  A missing pose or missing keypoint array is
`none`; the three `null` returns are the empty-array check, the average
confidence check against `confidenceThreshold || 0.5`, and the required
keypoint check. -/
noncomputable def analyzePose (s : Settings) (smoothed : Option Metrics) (now : ℚ)
    (pose : Option (List Keypoint)) : Option AnalysisResult × Option Metrics :=
  match pose with
  | none => (none, smoothed)
  | some kps =>
      if kps.length = 0 then (none, smoothed) else
      let confidenceThreshold := jsOr (s.detection.bind (·.confidenceThreshold)) (1/2)
      let avgConfidence := getAverageConfidence kps
      if avgConfidence < confidenceThreshold then (none, smoothed) else
      let keypoints := extractKeypoints kps
      if ¬ hasRequiredKeypoints keypoints then (none, smoothed) else
      let metricsRaw : Metrics :=
        { headForwardAngle := calculateHeadForwardAngle keypoints
          shoulderAsymmetry := calculateShoulderAsymmetry keypoints
          neckAngle := calculateNeckAngle keypoints
          confidence := avgConfidence
          timestamp := now }
      let metrics : Metrics :=
        match s.calibration with
        | none => metricsRaw
        | some cal =>
            { metricsRaw with
              headForwardAngle := applyCalibration metricsRaw.headForwardAngle cal.headForwardAngle
              shoulderAsymmetry :=
                applyCalibration metricsRaw.shoulderAsymmetry cal.shoulderAsymmetry }
      let sm := smoothMetrics smoothed metrics
      let score := calculatePostureScore s sm
      let status := classifyPosture score
      (some { metrics := sm, score := score, status := status, rawMetrics := metrics }, some sm)

/-- `constants.Time.SECOND` in milliseconds. -/
def Time.SECOND : ℚ := 1000

/-- `constants.Time.MINUTE` in milliseconds. -/
def Time.MINUTE : ℚ := 60000

/-- The background script's module state relevant to alerting:
`lastAlertTime` (initially `0`) and `poorPostureStartTime`
(initially `null`). -/
structure BgState where
  lastAlertTime : ℚ
  poorPostureStartTime : Option ℚ
deriving DecidableEq

/-- `background.triggerAlert`'s decision logic: no alert when
`alerts.enabled` is false or the single shared cooldown
(`now - lastAlertTime < alerts.cooldown * Time.SECOND`) is still running;
otherwise the alert fires and `lastAlertTime` is set to `now`.  The returned
Bool is whether a notification fires. -/
def triggerAlert (s : Settings) (st : BgState) (now : ℚ) : BgState × Bool :=
  if s.alerts.enabled = false then (st, false)
  else
    let cooldownMs := s.alerts.cooldown * Time.SECOND
    if now - st.lastAlertTime < cooldownMs then (st, false)
    else ({ st with lastAlertTime := now }, true)

/-- `background.handlePostureUpdate`'s alert path.  For `POOR` status the
start-of-streak timestamp is kept (`if (!poorPostureStartTime)
poorPostureStartTime = now` — JS falsy, so a stored time of `0` also resets,
hence `jsOr`), the elapsed poor time in seconds is compared against
`thresholds.poorPostureDuration`, and `triggerAlert` runs once the threshold
is met.  Any other status clears the start timestamp.  The script reads
`currentSettings.thresholds.poorPostureDuration` without a fallback;
settings reaching it always carry the defaults merged in by `loadSettings`,
so the impossible missing case uses the default 30. -/
def handlePostureUpdate (s : Settings) (st : BgState) (status : PostureStatus) (now : ℚ) :
    BgState × Bool :=
  if status = .poor then
    let start := jsOr st.poorPostureStartTime now
    let st1 : BgState := { st with poorPostureStartTime := some start }
    let poorPostureDuration := (now - start) / Time.SECOND
    let durationThreshold := (s.thresholds.map (·.poorPostureDuration)).getD 30
    if poorPostureDuration ≥ durationThreshold then triggerAlert s st1 now
    else (st1, false)
  else
    ({ st with poorPostureStartTime := none }, false)

/-- `background.snoozeAlerts(durationMinutes)`:
`lastAlertTime = Date.now() + durationMinutes * Time.MINUTE -
alerts.cooldown * Time.SECOND`. -/
def snoozeAlerts (s : Settings) (st : BgState) (now : ℚ) (durationMinutes : ℚ) : BgState :=
  { st with
    lastAlertTime := now + durationMinutes * Time.MINUTE - s.alerts.cooldown * Time.SECOND }

/-- Test harness: fold a sequence of `(status, now)` posture updates through
`handlePostureUpdate`, counting the alerts that fire. -/
def runUpdates (s : Settings) (st : BgState) : List (PostureStatus × ℚ) → BgState × ℕ
  | [] => (st, 0)
  | u :: rest =>
      let r := handlePostureUpdate s st u.1 u.2
      let tail := runUpdates s r.1 rest
      (tail.1, (if r.2 then 1 else 0) + tail.2)

/-- Default settings as the background script uses them: duration threshold
30 s, cooldown 300 s, alerts enabled. -/
def settings30_300 : Settings :=
  ⟨some .medium, some ⟨15, 10, 30⟩, ⟨true, 300, false⟩, some ⟨some 5, some (1/2)⟩, none⟩

/-- 65 simulated seconds of sustained Warning status, one update every 5 s,
starting at t = 1 000 000 ms (far past any initial cooldown). -/
def warningTrace : List (PostureStatus × ℚ) :=
  [(.warning, 1000000), (.warning, 1005000), (.warning, 1010000), (.warning, 1015000),
   (.warning, 1020000), (.warning, 1025000), (.warning, 1030000), (.warning, 1035000),
   (.warning, 1040000), (.warning, 1045000), (.warning, 1050000), (.warning, 1055000),
   (.warning, 1060000)]

/-- 35 simulated seconds of continuous Poor status, one update every 5 s. -/
def poorRun35 : List (PostureStatus × ℚ) :=
  [(.poor, 1000000), (.poor, 1005000), (.poor, 1010000), (.poor, 1015000),
   (.poor, 1020000), (.poor, 1025000), (.poor, 1030000), (.poor, 1035000)]

/-- 70 simulated seconds of continuous Poor status (two back-to-back 35 s
runs), then one more Poor update exactly 300 s after the first alert. -/
def poorRun70PlusCooldown : List (PostureStatus × ℚ) :=
  [(.poor, 1000000), (.poor, 1005000), (.poor, 1010000), (.poor, 1015000),
   (.poor, 1020000), (.poor, 1025000), (.poor, 1030000), (.poor, 1035000),
   (.poor, 1040000), (.poor, 1045000), (.poor, 1050000), (.poor, 1055000),
   (.poor, 1060000), (.poor, 1065000), (.poor, 1070000), (.poor, 1330000)]

/-- The confidence threshold `analyzePose` actually compares against:
`settings.detection?.confidenceThreshold || 0.5`, so a missing or zero
configured value falls back to `0.5`. -/
def effectiveConfidenceThreshold (s : Settings) : ℚ :=
  jsOr (s.detection.bind (·.confidenceThreshold)) (1/2)

/-- The insufficient-data condition under which `analyzePose` returns
`null`: missing/empty keypoint set, average confidence below the effective
threshold, or a required keypoint missing from the extracted map or with
score at most 0.3. -/
def insufficientData (s : Settings) (pose : Option (List Keypoint)) : Prop :=
  match pose with
  | none => True
  | some kps =>
      kps.length = 0 ∨
      getAverageConfidence kps < effectiveConfidenceThreshold s ∨
      hasRequiredKeypoints (extractKeypoints kps) = false

/-- A frame with the three required keypoints well placed but every score
0.4: average confidence 0.4, each required score above the 0.3 floor. -/
def frameLowConf : List Keypoint :=
  [⟨some "nose", some ⟨100, 50⟩, 2/5⟩,
   ⟨some "leftShoulder", some ⟨80, 120⟩, 2/5⟩,
   ⟨some "rightShoulder", some ⟨120, 120⟩, 2/5⟩]

/-- Settings whose configured `detection.confidenceThreshold` is the
in-range value `0`. -/
def settingsThresholdZero : Settings :=
  ⟨some .medium, some ⟨15, 10, 30⟩, ⟨true, 300, false⟩, some ⟨some 5, some 0⟩, none⟩

/-- A concrete keypoint map for the C5 witness: nose (100, 50), shoulders
(80, 120) and (120, 120), all with score 0.9. -/
def keypointMapWitness : String → Option ExtractedKeypoint :=
  fun q =>
    if q = "nose" then some ⟨100, 50, 9/10⟩
    else if q = "leftShoulder" then some ⟨80, 120, 9/10⟩
    else if q = "rightShoulder" then some ⟨120, 120, 9/10⟩
    else none

/-- The spec's per-metric score, written the way the spec states it:
`100 − 100·clamp((metric·multiplier)/(2·threshold), 0, 1)`.  Kept separate
from `calculatePostureScore` so the two can be compared. -/
noncomputable def claimComponentScore (metric multiplier threshold : ℝ) : ℝ :=
  100 - 100 * clamp ((metric * multiplier) / (2 * threshold)) 0 1

end PostureMonitor

namespace PostureMonitor

/-- C1 (amended): `analyzePose` returns `null` exactly when the keypoint set
is empty or absent, the average confidence over all supplied keypoints is
below the effective threshold (`confidenceThreshold || 0.5`), or one of the
required keypoints nose/leftShoulder/rightShoulder is missing from the
extracted map or has score not greater than 0.3; the 0.3 floor is a check
independent of and additional to the average-confidence check. -/
theorem analyzePose_none_iff_insufficientData (s : Settings) (smoothed : Option Metrics)
    (now : ℚ) (pose : Option (List Keypoint)) :
    (analyzePose s smoothed now pose).1 = none ↔ insufficientData s pose := by
  cases pose with
  | none => simp [analyzePose, insufficientData]
  | some kps =>
      have hID : insufficientData s (some kps) ↔
          (kps.length = 0 ∨ getAverageConfidence kps < effectiveConfidenceThreshold s ∨
            hasRequiredKeypoints (extractKeypoints kps) = false) := Iff.rfl
      rw [hID]
      simp only [analyzePose, effectiveConfidenceThreshold]
      split_ifs with h1 h2 h3
      · exact iff_of_true rfl (Or.inl h1)
      · exact iff_of_true rfl (Or.inr (Or.inl h2))
      · refine iff_of_false (by simp) ?_
        rintro (h | h | h)
        · exact h1 h
        · exact h2 h
        · rw [h3] at h
          exact Bool.noConfusion h
      · exact iff_of_true rfl (Or.inr (Or.inr (by simpa using h3)))

/-- C1 counterexample: with `detection.confidenceThreshold` configured to
`0` and a frame of average confidence 0.4 whose required keypoints all score
above 0.3, `analyzePose` returns `null` although none of the claim's three
conditions (read against the configured threshold 0) holds. -/
theorem analyzePose_none_despite_claim_conditions :
    (analyzePose settingsThresholdZero none 0 (some frameLowConf)).1 = none ∧
    ¬(frameLowConf.length = 0 ∨ getAverageConfidence frameLowConf < 0 ∨
      hasRequiredKeypoints (extractKeypoints frameLowConf) = false) := by
  constructor
  · simp only [analyzePose, settingsThresholdZero, frameLowConf, jsOr, Option.bind,
      getAverageConfidence, effectiveConfidenceThreshold, List.foldl, List.length]
    norm_num
  · simp only [frameLowConf, getAverageConfidence, hasRequiredKeypoints, extractKeypoints,
      requiredParts, List.foldl, List.length, List.all, ite_apply]
    simp only [String.reduceEq, reduceIte]
    norm_num

/-- C10: when the configured `detection.confidenceThreshold` is `0` (a value
the sanitizer accepts as in-range), `analyzePose` applies the default `0.5`
instead: any frame whose average keypoint confidence is below 0.5 is
rejected with `null`. -/
theorem zero_confidenceThreshold_uses_default
    (sens : Option Sensitivity) (th : Option ThresholdCfg) (al : AlertCfg)
    (cal : Option CalibrationCfg) (fps : Option ℚ) (smoothed : Option Metrics)
    (now : ℚ) (kps : List Keypoint)
    (h : getAverageConfidence kps < 1/2) :
    (analyzePose ⟨sens, th, al, some ⟨fps, some 0⟩, cal⟩ smoothed now (some kps)).1 = none := by
  have hlt : getAverageConfidence kps <
      effectiveConfidenceThreshold ⟨sens, th, al, some ⟨fps, some 0⟩, cal⟩ := by
    simpa [effectiveConfidenceThreshold, jsOr] using h
  simp only [analyzePose]
  split_ifs with hA hB hC
  · rfl
  · rfl
  · exact absurd (by simpa [effectiveConfidenceThreshold, jsOr] using hlt) hB
  · exact absurd (by simpa [effectiveConfidenceThreshold, jsOr] using hlt) hB

/-- Witness for C10 at a concrete frame of average confidence 0.35. -/
theorem zero_confidenceThreshold_uses_default_witness :
    getAverageConfidence
        [(⟨some "nose", some ⟨100, 50⟩, 7/20⟩ : Keypoint),
         ⟨some "leftShoulder", some ⟨80, 120⟩, 7/20⟩,
         ⟨some "rightShoulder", some ⟨120, 120⟩, 7/20⟩] < 1/2 ∧
    (analyzePose ⟨some .medium, some ⟨15, 10, 30⟩, ⟨true, 300, false⟩, some ⟨some 5, some 0⟩, none⟩
        none 0
        (some [⟨some "nose", some ⟨100, 50⟩, 7/20⟩,
               ⟨some "leftShoulder", some ⟨80, 120⟩, 7/20⟩,
               ⟨some "rightShoulder", some ⟨120, 120⟩, 7/20⟩])).1 = none :=
  ⟨by norm_num [getAverageConfidence, List.foldl],
   zero_confidenceThreshold_uses_default (some .medium) (some ⟨15, 10, 30⟩)
     ⟨true, 300, false⟩ none (some 5) none 0 _
     (by norm_num [getAverageConfidence, List.foldl])⟩

/-- `round` is monotone (used below for the clamped score). -/
lemma round_le_round {x y : ℝ} (h : x ≤ y) : round x ≤ round y := by
  rw [round_eq, round_eq]
  exact Int.floor_le_floor (by linarith)

/-- Rounding commutes with clamping to `[0, 100]`. -/
lemma round_max_min_comm (t : ℝ) :
    round (max 0 (min 100 t)) = max 0 (min 100 (round t)) := by
  have h100 : round (100 : ℝ) = 100 := by
    norm_num [round_eq]
  rcases le_total t 0 with h0 | h0
  · have h1 : min (100 : ℝ) t = t := min_eq_right (by linarith)
    have h3 : round t ≤ 0 := by simpa using round_le_round h0
    rw [h1, max_eq_left h0, round_zero]
    omega
  · rcases le_total t 100 with h1 | h1
    · have h4 : 0 ≤ round t := by simpa using round_le_round h0
      have h5 : round t ≤ 100 := by
        have := round_le_round h1
        rwa [h100] at this
      rw [min_eq_right h1, max_eq_right h0]
      omega
    · have h3 : 100 ≤ round t := by
        have := round_le_round h1
        rwa [h100] at this
      rw [min_eq_left h1]
      have hm : max (0 : ℝ) 100 = 100 := by norm_num
      rw [hm, h100]
      omega

/-- `normalizeValue v 0 M` is the spec's `clamp(v / M, 0, 1)` (with Lean's
`v / 0 = 0` both sides agree when `M = 0`). -/
lemma normalizeValue_eq_clamp (v M : ℝ) : normalizeValue v 0 M = clamp (v / M) 0 1 := by
  unfold normalizeValue clamp
  rcases eq_or_ne M 0 with h | h
  · simp [h]
  · rw [if_neg h]
    simp [sub_zero]

/-- The code's per-metric score equals the spec's `claimComponentScore`. -/
lemma code_component_eq_claim (metric mult thr : ℝ) :
    100 - normalizeValue (metric * mult) 0 (thr * 2) * 100 =
      claimComponentScore metric mult thr := by
  unfold claimComponentScore
  rw [normalizeValue_eq_clamp]
  have h : metric * mult / (thr * 2) = metric * mult / (2 * thr) := by ring
  rw [h]
  ring

/-- C4: the posture score is exactly the spec formula — weighted 0.6/0.4
combination of the per-metric scores, rounded and clamped to `[0, 100]` —
and classification bands are inclusive on their lower bounds: Good iff
score ≥ 80, Warning iff 50 ≤ score < 80, Poor iff score < 50. -/
theorem calculatePostureScore_formula_and_bands
    (sens : Option Sensitivity) (th : ThresholdCfg) (al : AlertCfg)
    (det : Option DetectionCfg) (cal : Option CalibrationCfg) (m : Metrics) :
    calculatePostureScore ⟨sens, some th, al, det, cal⟩ m =
      max 0 (min 100 (round
        (0.6 * claimComponentScore m.headForwardAngle
            ((SensitivityMultipliers (sens.getD .medium) : ℚ) : ℝ) ((th.headForwardAngle : ℚ) : ℝ) +
         0.4 * claimComponentScore m.shoulderAsymmetry
            ((SensitivityMultipliers (sens.getD .medium) : ℚ) : ℝ)
            ((th.shoulderAsymmetry : ℚ) : ℝ)))) ∧
    (∀ sc : ℤ,
      (classifyPosture sc = .good ↔ 80 ≤ sc) ∧
      (classifyPosture sc = .warning ↔ 50 ≤ sc ∧ sc < 80) ∧
      (classifyPosture sc = .poor ↔ sc < 50)) := by
  constructor
  · unfold calculatePostureScore
    simp only [Option.map_some', Option.getD_some]
    rw [code_component_eq_claim, code_component_eq_claim]
    rw [show claimComponentScore m.headForwardAngle
          ((SensitivityMultipliers (sens.getD .medium) : ℚ) : ℝ) ((th.headForwardAngle : ℚ) : ℝ) * 0.6 +
        claimComponentScore m.shoulderAsymmetry
          ((SensitivityMultipliers (sens.getD .medium) : ℚ) : ℝ)
          ((th.shoulderAsymmetry : ℚ) : ℝ) * 0.4 =
        0.6 * claimComponentScore m.headForwardAngle
          ((SensitivityMultipliers (sens.getD .medium) : ℚ) : ℝ) ((th.headForwardAngle : ℚ) : ℝ) +
        0.4 * claimComponentScore m.shoulderAsymmetry
          ((SensitivityMultipliers (sens.getD .medium) : ℚ) : ℝ)
          ((th.shoulderAsymmetry : ℚ) : ℝ) from by ring]
    exact round_max_min_comm _
  · intro sc
    unfold classifyPosture ScoreThresholds.GOOD ScoreThresholds.WARNING
    split_ifs with hg hw <;>
      refine ⟨?_, ?_, ?_⟩ <;> first | (simp_all; omega) | simp_all

/-- Every sensitivity multiplier is positive. -/
lemma sensitivityMultipliers_pos (x : Sensitivity) : 0 < (SensitivityMultipliers x : ℚ) := by
  cases x <;> norm_num [SensitivityMultipliers]

/-- `normalizeValue · 0 M` is monotone in its value when `M ≥ 0`. -/
lemma normalizeValue_mono {v w M : ℝ} (hM : 0 ≤ M) (h : v ≤ w) :
    normalizeValue v 0 M ≤ normalizeValue w 0 M := by
  unfold normalizeValue
  rcases eq_or_ne M 0 with h0 | h0
  · simp [h0]
  · rw [if_neg h0, if_neg h0]
    have hMpos : 0 < M := lt_of_le_of_ne hM (Ne.symm h0)
    have hdiv : (v - 0) / (M - 0) ≤ (w - 0) / (M - 0) := by
      simp only [sub_zero]
      exact (div_le_div_iff_of_pos_right hMpos).mpr h
    exact max_le_max le_rfl (min_le_min le_rfl hdiv)

/-- `normalizeValue (m·mult) 0 M` grows with the multiplier, for any sign
of `m` and `M`: when the normalised value is negative both sides clamp
to 0. -/
lemma normalizeValue_mult_mono {m M m1 m2 : ℝ} (h1 : 0 < m1) (h12 : m1 ≤ m2) :
    normalizeValue (m * m1) 0 M ≤ normalizeValue (m * m2) 0 M := by
  unfold normalizeValue
  rcases eq_or_ne M 0 with h0 | h0
  · simp [h0]
  · rw [if_neg h0, if_neg h0]
    simp only [sub_zero]
    have e : ∀ mu : ℝ, m * mu / M = m / M * mu := fun mu => by ring
    rw [e, e]
    rcases le_or_lt 0 (m / M) with hm | hm
    · exact max_le_max le_rfl (min_le_min le_rfl (mul_le_mul_of_nonneg_left h12 hm))
    · have hneg1 : m / M * m1 < 0 := mul_neg_of_neg_of_pos hm h1
      have hneg2 : m / M * m2 < 0 := mul_neg_of_neg_of_pos hm (lt_of_lt_of_le h1 h12)
      have z1 : max 0 (min 1 (m / M * m1)) = 0 := by
        rw [min_eq_right (by linarith), max_eq_left (le_of_lt hneg1)]
      have z2 : max 0 (min 1 (m / M * m2)) = 0 := by
        rw [min_eq_right (by linarith), max_eq_left (le_of_lt hneg2)]
      rw [z1, z2]

/-- The rounded clamped total is monotone. -/
lemma roundedScore_mono {t1 t2 : ℝ} (h : t1 ≤ t2) :
    round (max 0 (min 100 t1)) ≤ round (max 0 (min 100 t2)) :=
  round_le_round (max_le_max le_rfl (min_le_min le_rfl h))

/-- C7: with a fixed configuration (thresholds in their documented
nonnegative range) and all other metrics fixed, increasing
`headForwardAngle` never increases the score; and for identical metrics the
scores are ordered by sensitivity:
`score(high) ≤ score(medium) ≤ score(low)`. -/
theorem score_monotone_and_sensitivity_ordered
    (sens : Option Sensitivity) (th : ThresholdCfg) (al : AlertCfg)
    (det : Option DetectionCfg) (cal : Option CalibrationCfg)
    (m : Metrics) (a b : ℝ) :
    (a ≤ b → 0 ≤ th.headForwardAngle →
      calculatePostureScore ⟨sens, some th, al, det, cal⟩ { m with headForwardAngle := b } ≤
        calculatePostureScore ⟨sens, some th, al, det, cal⟩ { m with headForwardAngle := a }) ∧
    (calculatePostureScore ⟨some .high, some th, al, det, cal⟩ m ≤
        calculatePostureScore ⟨some .medium, some th, al, det, cal⟩ m ∧
      calculatePostureScore ⟨some .medium, some th, al, det, cal⟩ m ≤
        calculatePostureScore ⟨some .low, some th, al, det, cal⟩ m) := by
  constructor
  · intro hab hth
    unfold calculatePostureScore
    simp only [Option.map_some', Option.getD_some]
    apply roundedScore_mono
    have hmult : (0 : ℝ) < ((SensitivityMultipliers (sens.getD .medium) : ℚ) : ℝ) := by
      exact_mod_cast sensitivityMultipliers_pos _
    have hM : (0 : ℝ) ≤ ((th.headForwardAngle : ℚ) : ℝ) * 2 := by
      have : (0 : ℝ) ≤ ((th.headForwardAngle : ℚ) : ℝ) := by exact_mod_cast hth
      linarith
    have hval : a * ((SensitivityMultipliers (sens.getD .medium) : ℚ) : ℝ) ≤
        b * ((SensitivityMultipliers (sens.getD .medium) : ℚ) : ℝ) :=
      mul_le_mul_of_nonneg_right hab (le_of_lt hmult)
    have hnm := normalizeValue_mono hM hval
    nlinarith [hnm]
  · have hhigh : (SensitivityMultipliers Sensitivity.medium : ℚ) ≤ SensitivityMultipliers .high := by
      norm_num [SensitivityMultipliers]
    have hlow : (SensitivityMultipliers Sensitivity.low : ℚ) ≤ SensitivityMultipliers .medium := by
      norm_num [SensitivityMultipliers]
    constructor
    · unfold calculatePostureScore
      simp only [Option.map_some', Option.getD_some]
      apply roundedScore_mono
      have hmed : (0 : ℝ) < ((SensitivityMultipliers Sensitivity.medium : ℚ) : ℝ) := by
        exact_mod_cast sensitivityMultipliers_pos _
      have hh : ((SensitivityMultipliers Sensitivity.medium : ℚ) : ℝ) ≤
          ((SensitivityMultipliers Sensitivity.high : ℚ) : ℝ) := by exact_mod_cast hhigh
      have hnH := normalizeValue_mult_mono (m := m.headForwardAngle)
        (M := ((th.headForwardAngle : ℚ) : ℝ) * 2) hmed hh
      have hnS := normalizeValue_mult_mono (m := m.shoulderAsymmetry)
        (M := ((th.shoulderAsymmetry : ℚ) : ℝ) * 2) hmed hh
      nlinarith [hnH, hnS]
    · unfold calculatePostureScore
      simp only [Option.map_some', Option.getD_some]
      apply roundedScore_mono
      have hlo : (0 : ℝ) < ((SensitivityMultipliers Sensitivity.low : ℚ) : ℝ) := by
        exact_mod_cast sensitivityMultipliers_pos _
      have hh : ((SensitivityMultipliers Sensitivity.low : ℚ) : ℝ) ≤
          ((SensitivityMultipliers Sensitivity.medium : ℚ) : ℝ) := by exact_mod_cast hlow
      have hnH := normalizeValue_mult_mono (m := m.headForwardAngle)
        (M := ((th.headForwardAngle : ℚ) : ℝ) * 2) hlo hh
      have hnS := normalizeValue_mult_mono (m := m.shoulderAsymmetry)
        (M := ((th.shoulderAsymmetry : ℚ) : ℝ) * 2) hlo hh
      nlinarith [hnH, hnS]

/-- C5: on a keypoint map holding the three required keypoints, the raw
head-forward angle is `atan(|nose.x − shoulderMid.x| / |shoulderMid.y −
nose.y|)·180/π` (with value 0, not a division error, when the vertical
offset is 0 — in this formalisation `x / 0 = 0` makes the closed formula
hold in that case too), and the raw shoulder asymmetry is
`atan(|leftShoulder.y − rightShoulder.y| / |rightShoulder.x −
leftShoulder.x|)·180/π`, with value 0 at zero shoulder width. -/
theorem head_and_shoulder_angle_formulas
    (keypoints : String → Option ExtractedKeypoint) (n l r : ExtractedKeypoint)
    (hn : keypoints "nose" = some n) (hl : keypoints "leftShoulder" = some l)
    (hr : keypoints "rightShoulder" = some r) :
    calculateHeadForwardAngle keypoints =
      Real.arctan (((|n.x - (l.x + r.x) / 2| : ℚ) : ℝ) / ((|(l.y + r.y) / 2 - n.y| : ℚ) : ℝ)) *
        (180 / Real.pi) ∧
    ((l.y + r.y) / 2 - n.y = 0 → calculateHeadForwardAngle keypoints = 0) ∧
    calculateShoulderAsymmetry keypoints =
      Real.arctan (((|l.y - r.y| : ℚ) : ℝ) / ((|r.x - l.x| : ℚ) : ℝ)) * (180 / Real.pi) ∧
    (r.x - l.x = 0 → calculateShoulderAsymmetry keypoints = 0) := by
  have hH : calculateHeadForwardAngle keypoints =
      (if (|(l.y + r.y) / 2 - n.y| : ℚ) = 0 then 0
       else Real.arctan
          (((|n.x - (l.x + r.x) / 2| : ℚ) : ℝ) / ((|(l.y + r.y) / 2 - n.y| : ℚ) : ℝ)) *
          (180 / Real.pi)) := by
    unfold calculateHeadForwardAngle
    rw [hn, hl, hr]
  have hS : calculateShoulderAsymmetry keypoints =
      (if (|r.x - l.x| : ℚ) = 0 then 0
       else Real.arctan (((|l.y - r.y| : ℚ) : ℝ) / ((|r.x - l.x| : ℚ) : ℝ)) *
          (180 / Real.pi)) := by
    unfold calculateShoulderAsymmetry
    rw [hl, hr]
  refine ⟨?_, ?_, ?_, ?_⟩
  · rw [hH]
    by_cases hv : (|(l.y + r.y) / 2 - n.y| : ℚ) = 0
    · rw [if_pos hv]
      have hv0 : ((|(l.y + r.y) / 2 - n.y| : ℚ) : ℝ) = 0 := by exact_mod_cast hv
      rw [hv0, div_zero, Real.arctan_zero, zero_mul]
    · rw [if_neg hv]
  · intro h0
    rw [hH, if_pos (abs_eq_zero.mpr h0)]
  · rw [hS]
    by_cases hw : (|r.x - l.x| : ℚ) = 0
    · rw [if_pos hw]
      have hw0 : ((|r.x - l.x| : ℚ) : ℝ) = 0 := by exact_mod_cast hw
      rw [hw0, div_zero, Real.arctan_zero, zero_mul]
    · rw [if_neg hw]
  · intro h0
    rw [hS, if_pos (abs_eq_zero.mpr h0)]

/-- Witness for C5 at the concrete keypoint map. -/
theorem head_and_shoulder_angle_formulas_witness :
    calculateHeadForwardAngle keypointMapWitness =
      Real.arctan (((|(100 : ℚ) - (80 + 120) / 2| : ℚ) : ℝ) /
          ((|((120 : ℚ) + 120) / 2 - 50| : ℚ) : ℝ)) * (180 / Real.pi) ∧
    (((120 : ℚ) + 120) / 2 - 50 = 0 → calculateHeadForwardAngle keypointMapWitness = 0) ∧
    calculateShoulderAsymmetry keypointMapWitness =
      Real.arctan (((|(120 : ℚ) - 120| : ℚ) : ℝ) / ((|(120 : ℚ) - 80| : ℚ) : ℝ)) *
        (180 / Real.pi) ∧
    ((120 : ℚ) - 80 = 0 → calculateShoulderAsymmetry keypointMapWitness = 0) :=
  head_and_shoulder_angle_formulas keypointMapWitness
    ⟨100, 50, 9/10⟩ ⟨80, 120, 9/10⟩ ⟨120, 120, 9/10⟩
    (by simp [keypointMapWitness]) (by simp [keypointMapWitness]) (by simp [keypointMapWitness])

/-- The shape of every non-null `analyzePose` result: its `metrics` are the
smoothed version of its `rawMetrics`, and score/status are computed from the
smoothed metrics. -/
lemma analyzePose_result_shape (s : Settings) (smoothed : Option Metrics) (now : ℚ)
    (pose : Option (List Keypoint)) :
    (analyzePose s smoothed now pose).1 = none ∨
    ∃ raw : Metrics, (analyzePose s smoothed now pose).1 =
      some { metrics := smoothMetrics smoothed raw,
             score := calculatePostureScore s (smoothMetrics smoothed raw),
             status := classifyPosture (calculatePostureScore s (smoothMetrics smoothed raw)),
             rawMetrics := raw } := by
  cases pose with
  | none => exact Or.inl rfl
  | some kps =>
      simp only [analyzePose]
      split_ifs
      · exact Or.inl rfl
      · exact Or.inl rfl
      · exact Or.inr ⟨_, rfl⟩
      · exact Or.inl rfl

/-- Smoothing one step towards the same target contracts the distance by
exactly 0.7. -/
lemma smoothing_step_abs (x y : ℝ) :
    |(0.3 * x + (1 - 0.3) * y) - x| = 0.7 * |y - x| := by
  have h : (0.3 * x + (1 - 0.3) * y) - x = 0.7 * (y - x) := by ring
  rw [h, abs_mul, abs_of_pos (by norm_num : (0 : ℝ) < 0.7)]

/-- C6: on the first successful analysis after construction or reset (no
previous smoothed metrics) the smoothed metrics equal the raw (calibrated)
metrics; on every later successful analysis each angular field is
`0.3·new + 0.7·previous` while confidence and timestamp come unsmoothed
from the current frame; consequently the gap between each smoothed angular
field and its raw value contracts by the factor 0.7 on every call. -/
theorem smoothing_first_equals_raw_then_blend :
    (∀ (s : Settings) (now : ℚ) (pose : Option (List Keypoint)),
      Option.map (fun r => r.metrics) (analyzePose s none now pose).1 =
        Option.map (fun r => r.rawMetrics) (analyzePose s none now pose).1) ∧
    (∀ (s : Settings) (prev : Metrics) (now : ℚ) (pose : Option (List Keypoint)),
      Option.map (fun r => r.metrics) (analyzePose s (some prev) now pose).1 =
        Option.map (fun r =>
          ({ headForwardAngle := 0.3 * r.rawMetrics.headForwardAngle + 0.7 * prev.headForwardAngle,
             shoulderAsymmetry :=
               0.3 * r.rawMetrics.shoulderAsymmetry + 0.7 * prev.shoulderAsymmetry,
             neckAngle := 0.3 * r.rawMetrics.neckAngle + 0.7 * prev.neckAngle,
             confidence := r.rawMetrics.confidence,
             timestamp := r.rawMetrics.timestamp } : Metrics))
          (analyzePose s (some prev) now pose).1) ∧
    (∀ (s : Settings) (prev : Metrics) (now : ℚ) (pose : Option (List Keypoint)),
      Option.map (fun r =>
          (|r.metrics.headForwardAngle - r.rawMetrics.headForwardAngle|,
           |r.metrics.shoulderAsymmetry - r.rawMetrics.shoulderAsymmetry|,
           |r.metrics.neckAngle - r.rawMetrics.neckAngle|))
          (analyzePose s (some prev) now pose).1 =
        Option.map (fun r =>
          (0.7 * |prev.headForwardAngle - r.rawMetrics.headForwardAngle|,
           0.7 * |prev.shoulderAsymmetry - r.rawMetrics.shoulderAsymmetry|,
           0.7 * |prev.neckAngle - r.rawMetrics.neckAngle|))
          (analyzePose s (some prev) now pose).1) := by
  refine ⟨?_, ?_, ?_⟩
  · intro s now pose
    rcases analyzePose_result_shape s none now pose with h | ⟨raw, h⟩
    · rw [h]
      rfl
    · rw [h]
      simp [smoothMetrics]
  · intro s prev now pose
    rcases analyzePose_result_shape s (some prev) now pose with h | ⟨raw, h⟩
    · rw [h]
      rfl
    · rw [h]
      simp only [Option.map_some', Option.some.injEq, smoothMetrics, exponentialSmoothing]
      simp only [Metrics.mk.injEq]
      norm_num
  · intro s prev now pose
    rcases analyzePose_result_shape s (some prev) now pose with h | ⟨raw, h⟩
    · rw [h]
      rfl
    · rw [h]
      simp only [Option.map_some', Option.some.injEq, smoothMetrics, exponentialSmoothing]
      exact Prod.ext (smoothing_step_abs _ _)
        (Prod.ext (smoothing_step_abs _ _) (smoothing_step_abs _ _))

/-- An alert only fires once the shared cooldown has elapsed. -/
lemma fired_cooldown_elapsed (s : Settings) (st : BgState) (status : PostureStatus) (now : ℚ)
    (h : (handlePostureUpdate s st status now).2 = true) :
    s.alerts.enabled = true ∧ s.alerts.cooldown * Time.SECOND ≤ now - st.lastAlertTime ∧
      (handlePostureUpdate s st status now).1.lastAlertTime = now := by
  simp only [handlePostureUpdate, triggerAlert] at h ⊢
  split_ifs at h ⊢ with h1 h2 h3 h4
  all_goals simp_all

/-- When no alert fires, the shared last-alert timestamp is unchanged. -/
lemma not_fired_lastAlertTime (s : Settings) (st : BgState) (status : PostureStatus) (now : ℚ)
    (h : (handlePostureUpdate s st status now).2 = false) :
    (handlePostureUpdate s st status now).1.lastAlertTime = st.lastAlertTime := by
  simp only [handlePostureUpdate, triggerAlert] at h ⊢
  split_ifs at h ⊢
  all_goals simp_all

/-- While every update happens before `deadline` and the state's last-alert
timestamp keeps `deadline` inside the cooldown window, no alert fires. -/
lemma no_alert_before (s : Settings) (deadline : ℚ) :
    ∀ (updates : List (PostureStatus × ℚ)) (st : BgState),
      (∀ u ∈ updates, u.2 < deadline) →
      deadline ≤ st.lastAlertTime + s.alerts.cooldown * Time.SECOND →
      (runUpdates s st updates).2 = 0 := by
  intro updates
  induction updates with
  | nil =>
      intro st _ _
      rfl
  | cons u rest ih =>
      intro st hall hinv
      have hu : u.2 < deadline := hall u (List.mem_cons_self u rest)
      have hfired : (handlePostureUpdate s st u.1 u.2).2 = false := by
        by_contra hh
        rw [Bool.not_eq_false] at hh
        obtain ⟨-, hcd, -⟩ := fired_cooldown_elapsed s st u.1 u.2 hh
        linarith
      have hlast := not_fired_lastAlertTime s st u.1 u.2 hfired
      simp only [runUpdates, hfired, if_false, Bool.false_eq_true, zero_add]
      exact ih _ (fun v hv => hall v (List.mem_cons_of_mem u hv)) (by rw [hlast]; exact hinv)

/-- C2 counterexample: 65 s of sustained Warning status with all cooldowns
long expired fires no alert at all and accumulates no poor-posture time —
against the claim that sustained Warning eventually fires a Warning-kind
alert. -/
theorem sustained_warning_fires_no_alert :
    (runUpdates settings30_300 ⟨0, none⟩ warningTrace).2 = 0 ∧
    (runUpdates settings30_300 ⟨0, none⟩ warningTrace).1.poorPostureStartTime = none := by
  exact ⟨rfl, rfl⟩

/-- C2 (amended): the controller tracks only the Poor kind: a Warning
evaluation is handled exactly like Good — it clears the poor-posture start
timestamp and never fires — and the only cooldown state is the single
shared `lastAlertTime`: a firing Poor update requires `alerts.enabled`,
requires `now − lastAlertTime ≥ alerts.cooldown` seconds, and overwrites
that one timestamp. -/
theorem warning_handled_like_good_single_cooldown (s : Settings) (st : BgState) (now : ℚ) :
    handlePostureUpdate s st .warning now = handlePostureUpdate s st .good now ∧
    handlePostureUpdate s st .warning now = ({ st with poorPostureStartTime := none }, false) ∧
    ((handlePostureUpdate s st .poor now).2 = true →
      s.alerts.enabled = true ∧
      s.alerts.cooldown * Time.SECOND ≤ now - st.lastAlertTime ∧
      (handlePostureUpdate s st .poor now).1.lastAlertTime = now) := by
  refine ⟨rfl, rfl, ?_⟩
  exact fired_cooldown_elapsed s st .poor now

/-- C3: with `thresholds.poorPostureDuration = 30` and a 300 s cooldown:
a Poor update before the streak reaches 30 s only keeps the streak running;
once the streak reaches 30 s an alert fires exactly when 300 s have passed
since the last alert and firing stamps the last-alert time; a Good update
resets the streak; a Poor update from a cleared streak restarts it at `now`
without alerting; and on concrete traces, 35 s of continuous Poor fires
exactly one alert, a second back-to-back 35 s run adds none, and the next
alert comes only once 300 s have elapsed since the first. -/
theorem poor_duration_threshold_and_cooldown
    (sens : Option Sensitivity) (det : Option DetectionCfg) (cal : Option CalibrationCfg)
    (sound : Bool) (thH thS : ℚ) (st : BgState) (now t0 : ℚ) :
    (st.poorPostureStartTime = some t0 → t0 ≠ 0 →
      (now - t0) / 1000 < 30 →
      handlePostureUpdate ⟨sens, some ⟨thH, thS, 30⟩, ⟨true, 300, sound⟩, det, cal⟩ st .poor now =
        ({ st with poorPostureStartTime := some t0 }, false)) ∧
    (st.poorPostureStartTime = some t0 → t0 ≠ 0 →
      (now - t0) / 1000 ≥ 30 → now - st.lastAlertTime ≥ 300 * 1000 →
      handlePostureUpdate ⟨sens, some ⟨thH, thS, 30⟩, ⟨true, 300, sound⟩, det, cal⟩ st .poor now =
        ({ lastAlertTime := now, poorPostureStartTime := some t0 }, true)) ∧
    (st.poorPostureStartTime = some t0 → t0 ≠ 0 →
      (now - t0) / 1000 ≥ 30 → now - st.lastAlertTime < 300 * 1000 →
      handlePostureUpdate ⟨sens, some ⟨thH, thS, 30⟩, ⟨true, 300, sound⟩, det, cal⟩ st .poor now =
        ({ st with poorPostureStartTime := some t0 }, false)) ∧
    (handlePostureUpdate ⟨sens, some ⟨thH, thS, 30⟩, ⟨true, 300, sound⟩, det, cal⟩ st .good now =
      ({ st with poorPostureStartTime := none }, false)) ∧
    (st.poorPostureStartTime = none →
      handlePostureUpdate ⟨sens, some ⟨thH, thS, 30⟩, ⟨true, 300, sound⟩, det, cal⟩ st .poor now =
        ({ st with poorPostureStartTime := some now }, false)) ∧
    (runUpdates settings30_300 ⟨0, none⟩ poorRun35).2 = 1 ∧
    (runUpdates settings30_300 ⟨0, none⟩ poorRun70PlusCooldown).2 = 2 := by
  refine ⟨?_, ?_, ?_, rfl, ?_, ?_, ?_⟩
  · intro hst ht0 hdur
    have hx : ¬((now - t0) / 1000 ≥ 30) := by linarith
    simp only [handlePostureUpdate, triggerAlert, hst, jsOr, if_neg ht0, Time.SECOND,
      Option.map_some', Option.getD_some, reduceIte, hx]
  · intro hst ht0 hdur hcd
    have hx : ¬(now - st.lastAlertTime < 300 * 1000) := not_lt.mpr (by linarith)
    simp only [handlePostureUpdate, triggerAlert, hst, jsOr, if_neg ht0, Time.SECOND,
      Option.map_some', Option.getD_some, reduceIte, hdur, hx]
    simp
  · intro hst ht0 hdur hcd
    have hx : now - st.lastAlertTime < 300 * 1000 := by linarith
    simp only [handlePostureUpdate, triggerAlert, hst, jsOr, if_neg ht0, Time.SECOND,
      Option.map_some', Option.getD_some, reduceIte, hdur, hx]
    simp
  · intro hst
    have hx : ¬((now - now) / 1000 ≥ 30) := by
      rw [sub_self]
      norm_num
    simp only [handlePostureUpdate, triggerAlert, hst, jsOr, Time.SECOND,
      Option.map_some', Option.getD_some, reduceIte, hx]
  · norm_num [runUpdates, handlePostureUpdate, triggerAlert, jsOr, Time.SECOND,
      settings30_300, poorRun35]
  · norm_num [runUpdates, handlePostureUpdate, triggerAlert, jsOr, Time.SECOND,
      settings30_300, poorRun70PlusCooldown]

/-- C8: after `snooze(durationMinutes)` at time `now`, no alert fires on any
update sequence that stays before `now + durationMinutes` minutes, whatever
the accumulated poor-posture state; and snoozing leaves the poor-posture
tracking untouched. -/
theorem snooze_suppresses_alerts (s : Settings) (st : BgState) (now durationMinutes : ℚ)
    (updates : List (PostureStatus × ℚ)) :
    ((∀ u ∈ updates, u.2 < now + durationMinutes * Time.MINUTE) →
      (runUpdates s (snoozeAlerts s st now durationMinutes) updates).2 = 0) ∧
    (snoozeAlerts s st now durationMinutes).poorPostureStartTime = st.poorPostureStartTime := by
  constructor
  · intro hall
    apply no_alert_before s (now + durationMinutes * Time.MINUTE) updates _ hall
    simp only [snoozeAlerts]
    linarith
  · rfl

/-- C9: with `alerts.enabled = false` no update ever fires an alert and the
last-alert timestamp never moves, while poor-posture tracking evolves
exactly as it would with alerts enabled; and from any state whose streak
already meets the duration threshold (with the cooldown elapsed), a single
Poor update after re-enabling fires immediately — no re-accumulation. -/
theorem alerts_disabled_no_fire_tracking_proceeds
    (sens : Option Sensitivity) (th : ThresholdCfg) (det : Option DetectionCfg)
    (cal : Option CalibrationCfg) (cooldown : ℚ) (sound : Bool)
    (st : BgState) (status : PostureStatus) (now t0 nowAfter : ℚ) :
    (handlePostureUpdate ⟨sens, some th, ⟨false, cooldown, sound⟩, det, cal⟩ st status now).2 =
      false ∧
    (handlePostureUpdate ⟨sens, some th, ⟨false, cooldown, sound⟩, det, cal⟩ st status
        now).1.poorPostureStartTime =
      (handlePostureUpdate ⟨sens, some th, ⟨true, cooldown, sound⟩, det, cal⟩ st status
        now).1.poorPostureStartTime ∧
    (handlePostureUpdate ⟨sens, some th, ⟨false, cooldown, sound⟩, det, cal⟩ st status
        now).1.lastAlertTime = st.lastAlertTime ∧
    (st.poorPostureStartTime = some t0 → t0 ≠ 0 →
      (nowAfter - t0) / Time.SECOND ≥ th.poorPostureDuration →
      nowAfter - st.lastAlertTime ≥ cooldown * Time.SECOND →
      (handlePostureUpdate ⟨sens, some th, ⟨true, cooldown, sound⟩, det, cal⟩ st .poor
        nowAfter).2 = true) := by
  refine ⟨?_, ?_, ?_, ?_⟩
  · simp only [handlePostureUpdate, triggerAlert]
    split_ifs <;> simp_all
  · simp only [handlePostureUpdate, triggerAlert]
    split_ifs <;> simp_all
  · simp only [handlePostureUpdate, triggerAlert]
    split_ifs <;> simp_all
  · intro hst ht0 hdur hcd
    have hx : ¬(nowAfter - st.lastAlertTime < cooldown * Time.SECOND) := not_lt.mpr (by linarith)
    simp only [handlePostureUpdate, triggerAlert, hst, jsOr, if_neg ht0,
      Option.map_some', Option.getD_some, reduceIte, hdur, hx]
    simp

end PostureMonitor
